import Mathlib

/-
  Verification development for the SOLID-principles navigation-bar repository.

  The repository contains a stateless service (NavBarService) with two
  logging operations, a base component (NavBarComponentComponent) that
  delegates both capability operations to the injected service, and a
  derived component (CustomNavBarComponent) that, in its final (DIP)
  version, overrides nothing.  The README additionally records historical
  versions (OCP, LSP, ISP) in which the components log directly and the
  derived component overrides ngOnDestroy (and, in the ISP version,
  displayLinks).

  Observable behaviour is modelled as explicit state passing together with
  the ordered list of console.log messages each invocation emits.
-/

namespace Solid

/- Fixed log strings appearing in the source. -/

def defaultLinksMsg : String := "Displaying default navbar links"

def customLinksMsg : String := "Displaying custom navbar links"

def serviceCleanupMsg : String := "NavBarService cleanup performed!"

def componentCleanupMsg : String := "NavBarComponent cleanup performed!"

def hellBhieMsg : String := "Hell Bhie!"

def customExtraCleanupMsg : String := "CustomNavBarComponent is being destroyed with extra cleanup!"

/-- One anchor tag of a component template: href fragment and label. -/
structure Anchor where
  href : String
  label : String
  deriving DecidableEq, Repr

/-- Static template of NavBarComponentComponent (final version). -/
def navBarTemplate : List Anchor :=
  [⟨"#home", "Home"⟩, ⟨"#about", "About"⟩, ⟨"#services", "Services"⟩, ⟨"#contact", "Contact"⟩]

/-- Static template of CustomNavBarComponent (final version). -/
def customNavBarTemplate : List Anchor :=
  [⟨"#home", "Home"⟩, ⟨"#about", "About"⟩, ⟨"#custom", "Custom Link"⟩, ⟨"#contact", "Contact"⟩]

/-- State of NavBarService.  The class declares no fields at all
(its constructor body is empty), so the state is an empty structure. -/
structure NavBarService where
  deriving DecidableEq, Repr

/-- NavBarService.displayLinks: logs the default-links message. -/
def NavBarService.displayLinks (s : NavBarService) : NavBarService × List String :=
  (s, [defaultLinksMsg])

/-- NavBarService.ngOnDestroy: logs the service-cleanup message. -/
def NavBarService.ngOnDestroy (s : NavBarService) : NavBarService × List String :=
  (s, [serviceCleanupMsg])

/-- Instance state of the final NavBarComponentComponent: the injected
service reference and the static template declared by the component. -/
structure NavBarComponentComponent where
  navBarService : NavBarService
  template : List Anchor
  deriving DecidableEq, Repr

/-- Constructor of the final NavBarComponentComponent: stores the
injected service; the template is the one declared on the class. -/
def NavBarComponentComponent.construct (svc : NavBarService) : NavBarComponentComponent :=
  { navBarService := svc, template := navBarTemplate }

/-- Final NavBarComponentComponent.ngOnDestroy: delegates to the service,
then logs its own cleanup message. -/
def NavBarComponentComponent.ngOnDestroy (c : NavBarComponentComponent) :
    NavBarComponentComponent × List String :=
  let r := c.navBarService.ngOnDestroy
  ({ c with navBarService := r.1 }, r.2 ++ [componentCleanupMsg])

/-- Final NavBarComponentComponent.displayLinks: delegates to the service,
adding nothing of its own. -/
def NavBarComponentComponent.displayLinks (c : NavBarComponentComponent) :
    NavBarComponentComponent × List String :=
  let r := c.navBarService.displayLinks
  ({ c with navBarService := r.1 }, r.2)

/-- Constructor of the final CustomNavBarComponent: passes the injected
service to super; only the declared template differs from the base. -/
def CustomNavBarComponent.construct (svc : NavBarService) : NavBarComponentComponent :=
  { navBarService := svc, template := customNavBarTemplate }

/-- Final CustomNavBarComponent.displayLinks: the class declares no
override (the override present in the ISP version is commented out), so
dispatch resolves to the inherited base method. -/
def CustomNavBarComponent.displayLinks :
    NavBarComponentComponent → NavBarComponentComponent × List String :=
  NavBarComponentComponent.displayLinks

/-- Final CustomNavBarComponent.ngOnDestroy: the class declares no
override (the override is commented out), so dispatch resolves to the
inherited base method. -/
def CustomNavBarComponent.ngOnDestroy :
    NavBarComponentComponent → NavBarComponentComponent × List String :=
  NavBarComponentComponent.ngOnDestroy

/- Historical versions recorded in the README.  These components hold no
service and no fields; each method emits a fixed trace. -/

/-- README OCP version: NavBarComponentComponent.ngOnDestroy logs one
fixed message. -/
def ocpNavBarNgOnDestroy : List String := [hellBhieMsg]

/-- README LSP version: CustomNavBarComponent.ngOnDestroy overrides,
first calling super.ngOnDestroy() and then logging the extra-cleanup
message. -/
def lspCustomNgOnDestroy : List String :=
  ocpNavBarNgOnDestroy ++ [customExtraCleanupMsg]

/-- README ISP version: base displayLinks logs the default message. -/
def ispNavBarDisplayLinks : List String := [defaultLinksMsg]

/-- README ISP version: the derived override of displayLinks logs the
custom message. -/
def ispCustomDisplayLinks : List String := [customLinksMsg]

/-- README ISP version: base ngOnDestroy logs the same fixed message as
the OCP version. -/
def ispNavBarNgOnDestroy : List String := [hellBhieMsg]

/-- README ISP version: the derived override of ngOnDestroy calls super
and then logs the extra-cleanup message. -/
def ispCustomNgOnDestroy : List String :=
  ispNavBarNgOnDestroy ++ [customExtraCleanupMsg]

/- Invocation sequences over the two capability operations. -/

/-- The two capability operations every unit offers. -/
inductive ServiceOp where
  | display : ServiceOp
  | destroy : ServiceOp
  deriving DecidableEq, Repr

/-- Dispatch one capability operation on the service. -/
def NavBarService.run (s : NavBarService) : ServiceOp → NavBarService × List String
  | .display => s.displayLinks
  | .destroy => s.ngOnDestroy

/-- Run a sequence of operations on the service, threading its state and
concatenating the emitted logs. -/
def NavBarService.runAll (s : NavBarService) : List ServiceOp → NavBarService × List String
  | [] => (s, [])
  | op :: ops =>
    let r := s.run op
    let rest := r.1.runAll ops
    (rest.1, r.2 ++ rest.2)

/-- Dispatch one capability operation on a component instance. -/
def NavBarComponentComponent.run (c : NavBarComponentComponent) :
    ServiceOp → NavBarComponentComponent × List String
  | .display => c.displayLinks
  | .destroy => c.ngOnDestroy

/-- A world of M component instances sharing the single service: the
shared service state plus the per-instance templates (the only
per-instance datum, fixed at construction). -/
structure NavWorld where
  service : NavBarService
  templates : List (List Anchor)
  deriving DecidableEq, Repr

/-- One invocation in the world: component number i runs the given
operation, reading and writing the shared service state. -/
def NavWorld.invoke (w : NavWorld) (inv : Nat × ServiceOp) : NavWorld × List String :=
  let c : NavBarComponentComponent :=
    { navBarService := w.service, template := w.templates.getD inv.1 [] }
  let r := c.run inv.2
  ({ service := r.1.navBarService, templates := w.templates.set inv.1 r.1.template }, r.2)

/-- Run a sequence of invocations over the world, concatenating logs. -/
def NavWorld.invokeAll (w : NavWorld) : List (Nat × ServiceOp) → NavWorld × List String
  | [] => (w, [])
  | inv :: invs =>
    let r := w.invoke inv
    let rest := r.1.invokeAll invs
    (rest.1, r.2 ++ rest.2)

/-- The log emitted by one independent single invocation of an operation
on a freshly constructed component backed by a fresh service. -/
def singleInvocationLog (op : ServiceOp) : List String :=
  ((NavBarComponentComponent.construct ⟨⟩).run op).2

/- Statement-level model, for totality.  The bodies of the four methods
in the final version consist only of console.log statements and
delegated calls; a throw statement exists in the modelling language but
occurs in no body. -/

/-- The four methods of the final version. -/
inductive Method where
  | svcDisplayLinks : Method
  | svcNgOnDestroy : Method
  | cmpDisplayLinks : Method
  | cmpNgOnDestroy : Method
  deriving DecidableEq, Repr

/-- A statement of a method body. -/
inductive Stmt where
  | log : String → Stmt
  | throwErr : String → Stmt
  | call : Method → Stmt
  deriving DecidableEq, Repr

/-- The bodies of the four methods, statement by statement, as written
in the final source. -/
def methodBody : Method → List Stmt
  | .svcDisplayLinks => [.log defaultLinksMsg]
  | .svcNgOnDestroy => [.log serviceCleanupMsg]
  | .cmpDisplayLinks => [.call .svcDisplayLinks]
  | .cmpNgOnDestroy => [.call .svcNgOnDestroy, .log componentCleanupMsg]

/-- A runtime error: an exception thrown by a body, or call depth
exhaustion. -/
inductive NavError where
  | thrown : String → NavError
  | depthExceeded : NavError
  deriving DecidableEq, Repr

/-- Execute a body with a call-depth budget; a throw statement or an
exhausted budget aborts execution with an error. -/
def execBody : Nat → List Stmt → Except NavError (List String)
  | _, [] => .ok []
  | fuel, .log m :: rest =>
    match execBody fuel rest with
    | .ok out => .ok (m :: out)
    | .error e => .error e
  | _, .throwErr m :: _ => .error (.thrown m)
  | 0, .call _ :: _ => .error .depthExceeded
  | fuel + 1, .call m :: rest =>
    match execBody fuel (methodBody m) with
    | .ok out1 =>
      match execBody (fuel + 1) rest with
      | .ok out2 => .ok (out1 ++ out2)
      | .error e => .error e
    | .error e => .error e
  termination_by fuel stmts => (fuel, stmts)

/- Helper lemmas, shared by the claim theorems. -/

/-- NavBarService has no fields, so any two service states are equal. -/
theorem navBarService_eq (s t : NavBarService) : s = t := by
  cases s
  cases t
  rfl

/-- Writing back the value read at an index leaves a list unchanged. -/
theorem list_set_getD_self {α : Type} (l : List α) (i : Nat) (d : α) :
    l.set i (l.getD i d) = l := by
  induction l generalizing i with
  | nil => rfl
  | cons a l ih =>
    cases i with
    | zero => rfl
    | succ n =>
      show a :: l.set n (l.getD n d) = a :: l
      rw [ih]

/-- Running either operation leaves the component template unchanged. -/
theorem run_preserves_template (c : NavBarComponentComponent) (op : ServiceOp) :
    (c.run op).1.template = c.template := by
  cases op <;> rfl

/-- The log of an invocation through a component depends only on the
operation, not on the component or service state. -/
theorem run_log_const (c : NavBarComponentComponent) (op : ServiceOp) :
    (c.run op).2 = singleInvocationLog op := by
  cases op <;> rfl

/- Claim theorems. -/

/-- Claim C1, counterexample: in the final (DIP) version, constructing
CustomNavBarComponent and invoking displayLinks emits the default-links
message and never the custom-links message, so the claimed trace
(exactly the custom-links effect, no default-links effect) is false at
this concrete instance. -/
theorem c1_counterexample :
    (CustomNavBarComponent.displayLinks (CustomNavBarComponent.construct ⟨⟩)).2
        = [defaultLinksMsg]
      ∧ customLinksMsg ∉
        (CustomNavBarComponent.displayLinks (CustomNavBarComponent.construct ⟨⟩)).2
      ∧ defaultLinksMsg ∈
        (CustomNavBarComponent.displayLinks (CustomNavBarComponent.construct ⟨⟩)).2
      ∧ (CustomNavBarComponent.displayLinks (CustomNavBarComponent.construct ⟨⟩)).2
        ≠ [customLinksMsg] := by
  refine ⟨rfl, ?_, ?_, ?_⟩ <;> decide

/-- Claim C1, amended: in the final (DIP) version, constructing
CustomNavBarComponent and invoking displayLinks produces exactly the
default-links side-effect and no custom-links side-effect, because the
derived class no longer overrides displayLinks; the custom-links effect
belongs only to the historical ISP version override. -/
theorem c1_final_custom_displayLinks (svc : NavBarService) :
    (CustomNavBarComponent.displayLinks (CustomNavBarComponent.construct svc)).2
        = [defaultLinksMsg]
      ∧ customLinksMsg ∉
        (CustomNavBarComponent.displayLinks (CustomNavBarComponent.construct svc)).2
      ∧ ispCustomDisplayLinks = [customLinksMsg] := by
  refine ⟨rfl, ?_, rfl⟩
  show customLinksMsg ∉ [defaultLinksMsg]
  decide

/-- Claim C2: each ngOnDestroy invocation, on any final component
instance (base or derived, which share the inherited method), emits
exactly one delegated teardown effect and exactly one own cleanup
effect, delegate first; in the historical versions the OCP base emits
exactly one teardown effect, and the LSP derived override, which chains
explicitly to its parent, emits exactly one additional effect after the
parent effect. -/
theorem c2_teardown_effects (c : NavBarComponentComponent) :
    ((NavBarComponentComponent.ngOnDestroy c).2.count serviceCleanupMsg = 1
        ∧ (NavBarComponentComponent.ngOnDestroy c).2.count componentCleanupMsg = 1
        ∧ (NavBarComponentComponent.ngOnDestroy c).2
            = (c.navBarService.ngOnDestroy).2 ++ [componentCleanupMsg])
      ∧ CustomNavBarComponent.ngOnDestroy c = NavBarComponentComponent.ngOnDestroy c
      ∧ (ocpNavBarNgOnDestroy.count hellBhieMsg = 1 ∧ ocpNavBarNgOnDestroy = [hellBhieMsg])
      ∧ (lspCustomNgOnDestroy = ocpNavBarNgOnDestroy ++ [customExtraCleanupMsg]
        ∧ lspCustomNgOnDestroy.count hellBhieMsg = 1
        ∧ lspCustomNgOnDestroy.count customExtraCleanupMsg = 1) := by
  refine ⟨⟨?_, ?_, rfl⟩, rfl, ⟨?_, rfl⟩, rfl, ?_, ?_⟩
  · show List.count serviceCleanupMsg [serviceCleanupMsg, componentCleanupMsg] = 1
    decide
  · show List.count componentCleanupMsg [serviceCleanupMsg, componentCleanupMsg] = 1
    decide
  · show List.count hellBhieMsg [hellBhieMsg] = 1
    decide
  · show List.count hellBhieMsg [hellBhieMsg, customExtraCleanupMsg] = 1
    decide
  · show List.count customExtraCleanupMsg [hellBhieMsg, customExtraCleanupMsg] = 1
    decide

/-- Claim C3: in the historical (LSP) overriding version, destroying a
CustomNavBarComponent emits the base teardown effect first and the
derived extra-cleanup effect second. -/
theorem c3_lsp_destroy_order :
    lspCustomNgOnDestroy = [hellBhieMsg, customExtraCleanupMsg]
      ∧ lspCustomNgOnDestroy = ocpNavBarNgOnDestroy ++ [customExtraCleanupMsg]
      ∧ lspCustomNgOnDestroy.indexOf hellBhieMsg
          < lspCustomNgOnDestroy.indexOf customExtraCleanupMsg := by
  refine ⟨rfl, rfl, ?_⟩
  decide

/-- Claim C4: constructing the base NavBarComponentComponent and
invoking displayLinks emits exactly the default-links message and
nothing else. -/
theorem c4_base_displayLinks (svc : NavBarService) :
    (NavBarComponentComponent.displayLinks (NavBarComponentComponent.construct svc)).2
      = [defaultLinksMsg] := rfl

/-- Claim C5: the final CustomNavBarComponent overrides neither
displayLinks nor ngOnDestroy, so on every instance both operations
behave exactly as on the base class, and freshly constructed derived
and base instances emit identical logs under both operations. -/
theorem c5_custom_equals_base (c : NavBarComponentComponent) (svc : NavBarService) :
    CustomNavBarComponent.displayLinks c = NavBarComponentComponent.displayLinks c
      ∧ CustomNavBarComponent.ngOnDestroy c = NavBarComponentComponent.ngOnDestroy c
      ∧ (CustomNavBarComponent.displayLinks (CustomNavBarComponent.construct svc)).2
          = (NavBarComponentComponent.displayLinks (NavBarComponentComponent.construct svc)).2
      ∧ (CustomNavBarComponent.ngOnDestroy (CustomNavBarComponent.construct svc)).2
          = (NavBarComponentComponent.ngOnDestroy (NavBarComponentComponent.construct svc)).2 :=
  ⟨rfl, rfl, rfl, rfl⟩

/-- Claim C6: NavBarService is stateless: no operation changes its
state, the log of an operation is unaffected by whatever sequence of
operations ran before it, and a sequence of invocations emits exactly
the concatenation of the individual single-invocation logs. -/
theorem c6_service_stateless (s : NavBarService) (ops : List ServiceOp) (op : ServiceOp) :
    ((s.runAll ops).1.run op).2 = (s.run op).2
      ∧ (s.run op).1 = s
      ∧ (s.runAll ops).2 = (ops.map fun o => (s.run o).2).flatten := by
  refine ⟨?_, ?_, ?_⟩
  · cases op <;> rfl
  · cases op <;> rfl
  · induction ops with
    | nil => rfl
    | cons o ops ih =>
      have h1 : (s.run o).1 = s := by cases o <;> rfl
      simp only [NavBarService.runAll, List.map, List.flatten_cons, h1, ih]

/-- Claim C7: invoking the shared service N times across M component
instances emits exactly the concatenation of N independent
single-invocation logs, each block depending only on the operation and
not on the invoking instance or on any earlier invocation, and leaves
every instance template unchanged. -/
theorem c7_shared_service_independent (w : NavWorld) (invs : List (Nat × ServiceOp)) :
    (w.invokeAll invs).2 = (invs.map fun inv => singleInvocationLog inv.2).flatten
      ∧ (w.invokeAll invs).1.templates = w.templates := by
  induction invs generalizing w with
  | nil => exact ⟨rfl, rfl⟩
  | cons inv invs ih =>
    obtain ⟨i, op⟩ := inv
    have hlog : (w.invoke (i, op)).2 = singleInvocationLog op :=
      run_log_const _ op
    have htpl : (w.invoke (i, op)).1.templates = w.templates := by
      show w.templates.set i _ = w.templates
      rw [run_preserves_template]
      exact list_set_getD_self w.templates i []
    obtain ⟨ih1, ih2⟩ := ih (w.invoke (i, op)).1
    refine ⟨?_, ?_⟩
    · show (w.invoke (i, op)).2 ++ ((w.invoke (i, op)).1.invokeAll invs).2 = _
      rw [hlog, ih1]
      rfl
    · show ((w.invoke (i, op)).1.invokeAll invs).1.templates = w.templates
      rw [ih2, htpl]

/-- Claim C9: every operation of the system is total: executing any of
the four method bodies under the statement-level evaluator (which can
fail, through a throw statement or call-depth exhaustion) always
succeeds at any positive call depth, and no operation alters the
service state or the component template, so no state can be left
inconsistent. -/
theorem c9_operations_total (fuel : Nat) (m : Method) (s : NavBarService)
    (c : NavBarComponentComponent) (op : ServiceOp) :
    (execBody (fuel + 1) (methodBody m)).isOk = true
      ∧ (s.run op).1 = s
      ∧ (c.run op).1.navBarService = c.navBarService
      ∧ (c.run op).1.template = c.template := by
  refine ⟨?_, ?_, ?_, ?_⟩
  · cases m <;> simp [execBody, methodBody] <;> rfl
  · cases op <;> rfl
  · cases op <;> rfl
  · cases op <;> rfl

/-- Claim C10: in the final version every ngOnDestroy invocation on the
base component emits the delegated service teardown effect strictly
before the component own cleanup effect. -/
theorem c10_service_teardown_first (c : NavBarComponentComponent) :
    (NavBarComponentComponent.ngOnDestroy c).2 = [serviceCleanupMsg, componentCleanupMsg]
      ∧ (NavBarComponentComponent.ngOnDestroy c).2
          = (c.navBarService.ngOnDestroy).2 ++ [componentCleanupMsg]
      ∧ (NavBarComponentComponent.ngOnDestroy c).2.indexOf serviceCleanupMsg
          < (NavBarComponentComponent.ngOnDestroy c).2.indexOf componentCleanupMsg := by
  refine ⟨rfl, rfl, ?_⟩
  show List.indexOf _ [serviceCleanupMsg, componentCleanupMsg]
      < List.indexOf _ [serviceCleanupMsg, componentCleanupMsg]
  decide

/-- Claim C8: invoking displayLinks on any component instance leaves the
entire instance state, in particular its declared template, unchanged,
and emits exactly the defined logging side-effect. -/
theorem c8_displayLinks_frame (c : NavBarComponentComponent) :
    (NavBarComponentComponent.displayLinks c).1 = c
      ∧ (NavBarComponentComponent.displayLinks c).2 = [defaultLinksMsg]
      ∧ (NavBarComponentComponent.displayLinks c).1.template = c.template
      ∧ (CustomNavBarComponent.displayLinks c).1 = c :=
  ⟨rfl, rfl, rfl, rfl⟩

end Solid
